import Mathlib

/-!
Verification development for the Drift monitoring library.

Shallow embedding of the Python sources:
  * `src/drift/algorithms/cumsum.py`   → `Drift.CUMSUM`
  * `src/drift/algorithms/ewma.py`     → `Drift.EWMA`
  * `src/drift/notifiers/discord.py`   → `Drift.Notifier`
  * `src/drift/config.py`              → `Drift.MetricConfig`
  * `src/drift/monitor.py`             → `Drift.Monitor`

Numeric values (Python floats) are modelled as exact rationals `ℚ`; the one
place the code takes a square root (the EWMA deviation score) is modelled
over `ℝ` with `Real.sqrt`.  Python `dict`s (string keys, insertion ordered,
assignment updates in place, deletion removes the key) are modelled as
association lists `List (String × α)` with the helpers below.  Ambient
effects are passed explicitly: the wall clock `datetime.now().timestamp()`
becomes a `now : ℚ` argument, and the HTTP transport
(`requests.post` + `raise_for_status`) becomes a `transportOk : Bool`
argument recorded on an outbound-webhook trace.
-/

namespace Drift

/-! ### Association-list model of Python dicts -/

/-- `d[k]` lookup returning `none` when the key is missing. -/
def dlookup {α : Type} : List (String × α) → String → Option α
  | [], _ => none
  | (k, v) :: rest, key => if k = key then some v else dlookup rest key

/-- `d[k] = v`: update in place when the key exists, else append (Python
insertion order). -/
def dinsert {α : Type} : List (String × α) → String → α → List (String × α)
  | [], key, v => [(key, v)]
  | (k, w) :: rest, key, v =>
      if k = key then (k, v) :: rest else (k, w) :: dinsert rest key v

/-- `del d[k]`: remove every binding of the key (a Python dict holds it at
most once). -/
def derase {α : Type} : List (String × α) → String → List (String × α)
  | [], _ => []
  | (k, w) :: rest, key =>
      if k = key then derase rest key else (k, w) :: derase rest key

/-- `list(d.keys())`. -/
def dkeys {α : Type} (l : List (String × α)) : List String := l.map (·.1)

/-! ### CUMSUM detector (`src/drift/algorithms/cumsum.py`) -/

/-- State of a `CUMSUM` instance: constructor parameters `threshold`,
`drift` and the mutable fields `cumsum_pos`, `cumsum_neg`,
`reference_mean`. -/
structure CUMSUM where
  threshold : ℚ
  drift : ℚ
  cumsum_pos : ℚ
  cumsum_neg : ℚ
  reference_mean : Option ℚ
  deriving DecidableEq

/-- `CUMSUM.__init__`: accumulators start at `0.0`, reference unset. -/
def CUMSUM.init (threshold drift : ℚ) : CUMSUM :=
  { threshold := threshold, drift := drift
    cumsum_pos := 0, cumsum_neg := 0, reference_mean := none }

/-- `CUMSUM.set_reference`. -/
def CUMSUM.set_reference (c : CUMSUM) (mean : ℚ) : CUMSUM :=
  { c with reference_mean := some mean }

/-- `CUMSUM.update`: returns the mutated instance together with
`(is_anomaly, cumsum_value)`. -/
def CUMSUM.update (c : CUMSUM) (value : ℚ) : CUMSUM × Bool × ℚ :=
  match c.reference_mean with
  | none => ({ c with reference_mean := some value }, false, 0)
  | some ref =>
      let deviation := value - ref - c.drift
      let pos := max 0 (c.cumsum_pos + deviation)
      let neg := max 0 (c.cumsum_neg - deviation)
      let maxCumsum := max pos neg
      if maxCumsum > c.threshold then
        ({ c with cumsum_pos := 0, cumsum_neg := 0 }, true, maxCumsum)
      else
        ({ c with cumsum_pos := pos, cumsum_neg := neg }, false, maxCumsum)

/-- `CUMSUM.reset`: clears both accumulators and the reference. -/
def CUMSUM.reset (c : CUMSUM) : CUMSUM :=
  { c with cumsum_pos := 0, cumsum_neg := 0, reference_mean := none }

/-- Feed a whole sequence of values, collecting every `(is_anomaly, score)`
pair in order. -/
def CUMSUM.runSeq : CUMSUM → List ℚ → List (Bool × ℚ)
  | _, [] => []
  | c, v :: rest =>
      let r := c.update v
      (r.2.1, r.2.2) :: CUMSUM.runSeq r.1 rest

/-! ### EWMA detector (`src/drift/algorithms/ewma.py`) -/

/-- State of an `EWMA` instance: parameters `alpha`, `threshold_sigma` and
mutable fields `ewma`, `ewmvar` (both `None` until the first update). -/
structure EWMA where
  alpha : ℚ
  threshold_sigma : ℚ
  ewma : Option ℚ
  ewmvar : Option ℚ
  deriving DecidableEq

/-- `EWMA.__init__`. -/
def EWMA.init (alpha threshold_sigma : ℚ) : EWMA :=
  { alpha := alpha, threshold_sigma := threshold_sigma, ewma := none, ewmvar := none }

open Classical in
/-- `EWMA.update`: returns the mutated instance together with
`(is_anomaly, deviation_score)`.  The mean/variance recurrences are exact
rational arithmetic; `std = max(ewmvar ** 0.5, 0.01)` and the deviation
score live in `ℝ`.  On reachable states `ewmvar` is set whenever `ewma`
is (`getD 0` is never exercised). -/
noncomputable def EWMA.update (e : EWMA) (value : ℚ) : EWMA × Bool × ℝ :=
  match e.ewma with
  | none => ({ e with ewma := some value, ewmvar := some 0 }, false, 0)
  | some prev =>
      let newMean : ℚ := e.alpha * value + (1 - e.alpha) * prev
      let diff : ℚ := value - prev
      let newVar : ℚ := e.alpha * diff ^ 2 + (1 - e.alpha) * (e.ewmvar.getD 0)
      let std : ℝ := max (Real.sqrt (newVar : ℝ)) (1 / 100)
      let score : ℝ := |(value : ℝ) - (newMean : ℝ)| / std
      ({ e with ewma := some newMean, ewmvar := some newVar },
        decide (score > (e.threshold_sigma : ℝ)), score)

/-- `EWMA.reset`: clears mean and variance back to unset. -/
def EWMA.reset (e : EWMA) : EWMA :=
  { e with ewma := none, ewmvar := none }

/-- Feed a whole sequence of values, collecting every
`(is_anomaly, deviation_score)` pair in order. -/
noncomputable def EWMA.runSeq : EWMA → List ℚ → List (Bool × ℝ)
  | _, [] => []
  | e, v :: rest =>
      let r := e.update v
      (r.2.1, r.2.2) :: EWMA.runSeq r.1 rest

/-! ### Discord notifier (`src/drift/notifiers/discord.py`) -/

/-- `drift.exceptions.NotificationError`. -/
structure NotificationError where
  message : String
  deriving DecidableEq

/-- Structured webhook payload (the `embed` dict).  The alert embed carries
the color code, metric, value, severity, duration, algorithm, score and
timestamp fields; the recovery embed carries metric, previous value and a
wall-clock timestamp. -/
inductive Embed where
  | alert (color : ℕ) (metric : String) (value : ℚ) (severity : String)
      (duration : ℕ) (algorithm : String) (score : ℝ) (timestamp : String)
  | recovery (metric : String) (previousValue : ℚ) (now : ℚ)

/-- A sustained anomaly record as passed to `send_anomaly_alert`: the
detected-anomaly dict after `check_metrics` added the `severity`,
`duration` and `timestamp` keys. -/
structure SustainedAnomaly where
  metric : String
  value : ℚ
  score : ℝ
  algorithm : String
  configInfo : List (String × ℚ)
  severity : String
  duration : ℕ
  timestamp : String

/-- State of a `DiscordNotifier`: rate-limit cap, recovery switch and the
three per-metric maps.  `sent_webhooks` is the trace of transport
invocations (each `requests.post` call), the observable outbound channel. -/
structure Notifier where
  rate_limit_per_hour : ℕ
  enable_recovery : Bool
  alert_timestamps : List (String × List ℚ)
  alert_states : List (String × Bool)
  recovery_sent : List (String × Bool)
  sent_webhooks : List Embed

/-- `DiscordNotifier.__init__` (webhook URL elided; the transport is a
parameter of `sendWebhook`). -/
def Notifier.init (rate_limit_per_hour : ℕ) (enable_recovery : Bool) : Notifier :=
  { rate_limit_per_hour := rate_limit_per_hour, enable_recovery := enable_recovery
    alert_timestamps := [], alert_states := [], recovery_sent := [], sent_webhooks := [] }

/-- The pruning step of `_is_rate_limited`: keep timestamps strictly newer
than `now - 3600`. -/
def pruneWindow (now : ℚ) (l : List ℚ) : List ℚ :=
  l.filter (fun ts => ts > now - 3600)

/-- `DiscordNotifier._is_rate_limited`: prunes the metric's timestamp list
to the trailing hour (writing it back), then reports whether the pruned
list has reached `rate_limit_per_hour` entries.  (`alert_timestamps` is a
`defaultdict(list)`: lookups of a missing key behave as `[]`.) -/
def Notifier.isRateLimited (n : Notifier) (now : ℚ) (metric : String) :
    Notifier × Bool :=
  let pruned := pruneWindow now ((dlookup n.alert_timestamps metric).getD [])
  ({ n with alert_timestamps := dinsert n.alert_timestamps metric pruned },
    decide (n.rate_limit_per_hour ≤ pruned.length))

/-- `DiscordNotifier._record_alert`: append the current timestamp. -/
def Notifier.recordAlert (n : Notifier) (now : ℚ) (metric : String) : Notifier :=
  let l := ((dlookup n.alert_timestamps metric).getD []) ++ [now]
  { n with alert_timestamps := dinsert n.alert_timestamps metric l }

/-- `DiscordNotifier._send_webhook`: performs one blocking transport call
(recorded on the trace) and either succeeds or raises `NotificationError`.
`transportOk` stands for the outcome of `requests.post` +
`raise_for_status`. -/
def Notifier.sendWebhook (n : Notifier) (transportOk : Bool) (embed : Embed) :
    Notifier × Except NotificationError Unit :=
  ({ n with sent_webhooks := n.sent_webhooks ++ [embed] },
    if transportOk then Except.ok () else Except.error ⟨"Discord webhook failed"⟩)

/-- `DiscordNotifier.send_anomaly_alert`: rate-limit check, episode dedupe
check, build the embed, send, and on success record the timestamp, set
`alert_states[metric] = True` and `recovery_sent[metric] = False`.
A raised `NotificationError` is caught and turned into `False`. -/
def Notifier.sendAnomalyAlert (n : Notifier) (now : ℚ) (transportOk : Bool)
    (anomaly : SustainedAnomaly) : Notifier × Bool :=
  let metric := anomaly.metric
  let rl := n.isRateLimited now metric
  if rl.2 then (rl.1, false)
  else if (dlookup rl.1.alert_states metric).getD false then (rl.1, false)
  else
    let color : ℕ := if anomaly.severity = "medium" then 16776960 else 16711680
    let embed := Embed.alert color metric anomaly.value anomaly.severity
      anomaly.duration anomaly.algorithm anomaly.score anomaly.timestamp
    let sw := rl.1.sendWebhook transportOk embed
    match sw.2 with
    | Except.ok _ =>
        let n3 := sw.1.recordAlert now metric
        ({ n3 with alert_states := dinsert n3.alert_states metric true
                   recovery_sent := dinsert n3.recovery_sent metric false }, true)
    | Except.error _ => (sw.1, false)

/-- `DiscordNotifier.send_recovery_notification`: guarded by
`enable_recovery`, by being in the anomaly state, by the once-per-recovery
flag and by rate limiting; on success records the timestamp, clears
`alert_states[metric]` and sets `recovery_sent[metric]`.  A raised
`NotificationError` is caught and turned into `False`. -/
def Notifier.sendRecoveryNotification (n : Notifier) (now : ℚ) (transportOk : Bool)
    (metric : String) (previousValue : ℚ) : Notifier × Bool :=
  if !n.enable_recovery then (n, false)
  else if !((dlookup n.alert_states metric).getD false) then (n, false)
  else if (dlookup n.recovery_sent metric).getD false then (n, false)
  else
    let rl := n.isRateLimited now metric
    if rl.2 then (rl.1, false)
    else
      let embed := Embed.recovery metric previousValue now
      let sw := rl.1.sendWebhook transportOk embed
      match sw.2 with
      | Except.ok _ =>
          let n3 := sw.1.recordAlert now metric
          ({ n3 with alert_states := dinsert n3.alert_states metric false
                     recovery_sent := dinsert n3.recovery_sent metric true }, true)
      | Except.error _ => (sw.1, false)

/-- `DiscordNotifier.update_metric_state`: on either transition
(anomalous ↔ normal) reset the `recovery_sent` flag, then record the new
state. -/
def Notifier.updateMetricState (n : Notifier) (metric : String) (isAnomaly : Bool) :
    Notifier :=
  let wasAnomaly := (dlookup n.alert_states metric).getD false
  let rs :=
    if wasAnomaly && !isAnomaly then dinsert n.recovery_sent metric false
    else if !wasAnomaly && isAnomaly then dinsert n.recovery_sent metric false
    else n.recovery_sent
  { n with recovery_sent := rs, alert_states := dinsert n.alert_states metric isAnomaly }

/-! ### Configuration (`src/drift/config.py`) -/

/-- `MetricConfig`. -/
structure MetricConfig where
  algorithm : String
  threshold : ℚ
  drift : ℚ
  reference_mean : Option ℚ
  alpha : ℚ
  threshold_sigma : ℚ
  enabled : Bool
  description : String
  deriving DecidableEq

/-! ### Monitor (`src/drift/monitor.py`) -/

/-- A raw detected anomaly, as appended to `detected_anomalies` by the two
detector loops of `check_metrics` (before the sustained filter).
`configInfo` models the nested `config` sub-dict. -/
structure RawAnomaly where
  metric : String
  value : ℚ
  score : ℝ
  algorithm : String
  configInfo : List (String × ℚ)

/-- The result dict returned by `check_metrics`. -/
structure CheckResult where
  timestamp : String
  has_anomalies : Bool
  anomaly_count : ℕ
  anomalies : List SustainedAnomaly
  metrics : List (String × ℚ)
  scores : List (String × ℝ)

/-- Mutable state of a `DriftMonitor`.  The incoming metrics mapping is
modelled as `List (String × ℚ)` of the numeric samples; the string
`'timestamp'` entry of the Python dict is passed separately (see
`checkMetrics`). -/
structure Monitor where
  min_anomaly_duration : ℕ
  configs : List (String × MetricConfig)
  detectors : List (String × CUMSUM)
  ewma_detectors : List (String × EWMA)
  anomaly_history : List CheckResult
  anomaly_counters : List (String × ℕ)
  last_metric_values : List (String × ℚ)
  notifier : Option Notifier

/-- Accumulator of the two detector loops: the rebuilt detector dict plus
the running `scores` and `detected_anomalies`. -/
structure DetectAcc (δ : Type) where
  dets : List (String × δ)
  scores : List (String × ℝ)
  detected : List RawAnomaly

/-- One iteration of the CUMSUM loop of `check_metrics`: update the
detector when its metric has a sample (and is not the `'timestamp'` key),
record the score, and append a `RawAnomaly` when positive.  A missing
config would raise `KeyError` inside the `try`, which is caught after the
score assignment, skipping only the append. -/
noncomputable def cumsumStep (configs : List (String × MetricConfig))
    (metrics : List (String × ℚ)) (acc : DetectAcc CUMSUM)
    (entry : String × CUMSUM) : DetectAcc CUMSUM :=
  match dlookup metrics entry.1 with
  | some v =>
      if entry.1 = "timestamp" then
        { acc with dets := acc.dets ++ [entry] }
      else
        let r := entry.2.update v
        let scores := dinsert acc.scores entry.1 (r.2.2 : ℝ)
        let detected :=
          if r.2.1 then
            match dlookup configs entry.1 with
            | some cfg => acc.detected ++
                [{ metric := entry.1, value := v, score := (r.2.2 : ℝ), algorithm := "CUMSUM",
                   configInfo := [("threshold", cfg.threshold), ("drift", cfg.drift)] }]
            | none => acc.detected
          else acc.detected
        { dets := acc.dets ++ [(entry.1, r.1)], scores := scores, detected := detected }
  | none => { acc with dets := acc.dets ++ [entry] }

/-- One iteration of the EWMA loop of `check_metrics` (same shape as
`cumsumStep`). -/
noncomputable def ewmaStep (configs : List (String × MetricConfig))
    (metrics : List (String × ℚ)) (acc : DetectAcc EWMA)
    (entry : String × EWMA) : DetectAcc EWMA :=
  match dlookup metrics entry.1 with
  | some v =>
      if entry.1 = "timestamp" then
        { acc with dets := acc.dets ++ [entry] }
      else
        let r := entry.2.update v
        let scores := dinsert acc.scores entry.1 r.2.2
        let detected :=
          if r.2.1 then
            match dlookup configs entry.1 with
            | some cfg => acc.detected ++
                [{ metric := entry.1, value := v, score := r.2.2, algorithm := "EWMA",
                   configInfo := [("alpha", cfg.alpha), ("threshold_sigma", cfg.threshold_sigma)] }]
            | none => acc.detected
          else acc.detected
        { dets := acc.dets ++ [(entry.1, r.1)], scores := scores, detected := detected }
  | none => { acc with dets := acc.dets ++ [entry] }

/-- The detector phase of `check_metrics`: the CUMSUM loop followed by the
EWMA loop. -/
noncomputable def detectPhase (m : Monitor) (metrics : List (String × ℚ)) :
    DetectAcc CUMSUM × DetectAcc EWMA :=
  let c := m.detectors.foldl (cumsumStep m.configs metrics)
    { dets := [], scores := [], detected := [] }
  let e := m.ewma_detectors.foldl (ewmaStep m.configs metrics)
    { dets := [], scores := c.scores, detected := c.detected }
  (c, e)

/-- Accumulator of the sustained filter: the counters dict, the emitted
sustained list and the two name sets (Python `set`s, modelled as
first-appearance-ordered duplicate-free lists; only membership is used). -/
structure SustState where
  counters : List (String × ℕ)
  sustained : List SustainedAnomaly
  anomalyNames : List String
  sustainedNames : List String

/-- One iteration of the sustained filter of `check_metrics`: add the
metric name to `anomaly_metric_names`, increment its counter (initialising
at 0), and when the counter reaches `min_anomaly_duration` promote the
anomaly with severity, duration and timestamp. -/
def sustainedStep (minDur : ℕ) (ts : String) (st : SustState) (a : RawAnomaly) :
    SustState :=
  let anomalyNames :=
    if st.anomalyNames.contains a.metric then st.anomalyNames
    else st.anomalyNames ++ [a.metric]
  let c := (dlookup st.counters a.metric).getD 0 + 1
  let counters := dinsert st.counters a.metric c
  if minDur ≤ c then
    let severity := if minDur * 2 < c then "high" else "medium"
    { counters := counters
      sustained := st.sustained ++
        [{ metric := a.metric, value := a.value, score := a.score,
           algorithm := a.algorithm, configInfo := a.configInfo,
           severity := severity, duration := c, timestamp := ts }]
      anomalyNames := anomalyNames
      sustainedNames :=
        if st.sustainedNames.contains a.metric then st.sustainedNames
        else st.sustainedNames ++ [a.metric] }
  else
    { counters := counters, sustained := st.sustained
      anomalyNames := anomalyNames, sustainedNames := st.sustainedNames }

/-- The sustained filter of `check_metrics` over the whole
`detected_anomalies` list. -/
def sustainedFilter (minDur : ℕ) (ts : String) (counters : List (String × ℕ))
    (detected : List RawAnomaly) : SustState :=
  detected.foldl (sustainedStep minDur ts)
    { counters := counters, sustained := [], anomalyNames := [], sustainedNames := [] }

/-- The counter value the sustained filter assigns to `a.metric` (its old
value, defaulting to 0, plus one). -/
def bumpedCount (st : SustState) (a : RawAnomaly) : ℕ :=
  (dlookup st.counters a.metric).getD 0 + 1

/-- The sustained event `sustainedStep` promotes from `a` at counter value
`c`. -/
def promote (minDur : ℕ) (ts : String) (a : RawAnomaly) (c : ℕ) : SustainedAnomaly :=
  { metric := a.metric, value := a.value, score := a.score, algorithm := a.algorithm,
    configInfo := a.configInfo,
    severity := if minDur * 2 < c then "high" else "medium",
    duration := c, timestamp := ts }

/-- One iteration of the counter-reset loop of `check_metrics`: for a
counted metric without a raw positive this cycle, fire the recovery path
(when it was sustained, a notifier exists and a last value is recorded)
and zero its counter. -/
def resetStep (now : ℚ) (transportOk : Bool) (anomalyNames : List String)
    (previousSustained : List String) (lastVals : List (String × ℚ))
    (acc : List (String × ℕ) × Option Notifier) (name : String) :
    List (String × ℕ) × Option Notifier :=
  if anomalyNames.contains name then acc
  else
    let wasSustained := previousSustained.contains name
    let notifier :=
      match acc.2 with
      | some n =>
          if wasSustained && (dlookup lastVals name).isSome then
            let n1 := n.updateMetricState name false
            some (n1.sendRecoveryNotification now transportOk name
              ((dlookup lastVals name).getD 0)).1
          else some n
      | none => none
    (dinsert acc.1 name 0, notifier)

/-- One iteration of the notifier state-update loop of `check_metrics`:
mark the sustained metric anomalous and remember its latest value. -/
def stateUpdateStep (metrics : List (String × ℚ))
    (acc : Option Notifier × List (String × ℚ)) (name : String) :
    Option Notifier × List (String × ℚ) :=
  match acc.1 with
  | some n =>
      (some (n.updateMetricState name true),
        match dlookup metrics name with
        | some v => dinsert acc.2 name v
        | none => acc.2)
  | none => acc

/-- One iteration of the Discord alert loop of `check_metrics`. -/
def alertStep (now : ℚ) (transportOk : Bool) (acc : Option Notifier)
    (a : SustainedAnomaly) : Option Notifier :=
  match acc with
  | some n => some (n.sendAnomalyAlert now transportOk a).1
  | none => none

/-- Python's `history[-100:]`. -/
def lastN {α : Type} (l : List α) (k : ℕ) : List α := l.drop (l.length - k)

/-- `DriftMonitor.check_metrics` on an explicitly supplied metrics
mapping.  `ts` is `metrics.get('timestamp', datetime.now().isoformat())`,
`now` the wall clock read by the notifier's rate limiter and `transportOk`
the outcome of any webhook transport call this cycle. -/
noncomputable def Monitor.checkMetrics (m : Monitor) (now : ℚ) (transportOk : Bool)
    (metrics : List (String × ℚ)) (ts : String) : Monitor × CheckResult :=
  let d := detectPhase m metrics
  let detected := d.2.detected
  let scores := d.2.scores
  let s := sustainedFilter m.min_anomaly_duration ts m.anomaly_counters detected
  let previousSustained :=
    ((s.counters.filter (fun p => m.min_anomaly_duration ≤ p.2)).map (·.1))
  let rl := (dkeys s.counters).foldl
    (resetStep now transportOk s.anomalyNames previousSustained m.last_metric_values)
    (s.counters, m.notifier)
  let su := s.sustainedNames.foldl (stateUpdateStep metrics)
    (rl.2, m.last_metric_values)
  let result : CheckResult :=
    { timestamp := ts, has_anomalies := !s.sustained.isEmpty
      anomaly_count := s.sustained.length, anomalies := s.sustained
      metrics := metrics, scores := scores }
  let history :=
    if s.sustained.isEmpty then m.anomaly_history
    else lastN (m.anomaly_history ++ [result]) 100
  let notifier :=
    if s.sustained.isEmpty then su.1
    else s.sustained.foldl (alertStep now transportOk) su.1
  ({ m with detectors := d.1.dets, ewma_detectors := d.2.dets
            anomaly_counters := rl.1, last_metric_values := su.2
            notifier := notifier, anomaly_history := history }, result)

/-- Iterate `check_metrics` over successive cycles (same wall clock,
transport outcome and timestamp string each cycle), collecting results. -/
noncomputable def Monitor.runCycles (m : Monitor) (now : ℚ) (transportOk : Bool)
    (ts : String) : List (List (String × ℚ)) → Monitor × List CheckResult
  | [] => (m, [])
  | metrics :: rest =>
      let r := m.checkMetrics now transportOk metrics ts
      let rr := r.1.runCycles now transportOk ts rest
      (rr.1, r.2 :: rr.2)

/-- `DriftMonitor.reset`: reset every detector, clear history, counters and
last values, and clear the notifier's `alert_states` and `recovery_sent`
dicts. -/
def Monitor.reset (m : Monitor) : Monitor :=
  { m with detectors := m.detectors.map (fun p => (p.1, p.2.reset))
           ewma_detectors := m.ewma_detectors.map (fun p => (p.1, p.2.reset))
           anomaly_history := [], anomaly_counters := [], last_metric_values := []
           notifier := m.notifier.map
             (fun n => { n with alert_states := [], recovery_sent := [] }) }

/-- `DriftMonitor.update_metric_config`: store the config, drop any old
detector for the metric from both dicts, and build a fresh detector
matching the config's algorithm (a CUMSUM config seeds the reference when
provided). -/
def Monitor.updateMetricConfig (m : Monitor) (name : String) (config : MetricConfig) :
    Monitor :=
  let configs := dinsert m.configs name config
  let dets := derase m.detectors name
  let edets := derase m.ewma_detectors name
  if config.enabled then
    if config.algorithm = "CUMSUM" then
      let detector := CUMSUM.init config.threshold config.drift
      let detector :=
        match config.reference_mean with
        | some r => detector.set_reference r
        | none => detector
      { m with configs := configs, detectors := dinsert dets name detector
               ewma_detectors := edets }
    else if config.algorithm = "EWMA" then
      { m with configs := configs, detectors := dets
               ewma_detectors := dinsert edets name (EWMA.init config.alpha config.threshold_sigma) }
    else
      { m with configs := configs, detectors := dets, ewma_detectors := edets }
  else
    { m with configs := configs, detectors := dets, ewma_detectors := edets }

/-- Python's `x or default` on an optional float: `None` and `0.0` are both
falsy. -/
def pyOr (x : Option ℚ) (default : ℚ) : ℚ :=
  match x with
  | some v => if v = 0 then default else v
  | none => default

/-- `DriftMonitor.configure_metric`: merge with the existing config when
present (parameters passed as `none` keep the old value, but `algorithm`
and `enabled` always take the argument, whose Python defaults are
`'CUMSUM'` and `True`), or build a fresh config with the constructor
defaults, then apply `update_metric_config`. -/
def Monitor.configureMetric (m : Monitor) (name : String)
    (algorithm : String := "CUMSUM")
    (threshold : Option ℚ := none) (drift : Option ℚ := none)
    (reference_mean : Option ℚ := none) (alpha : Option ℚ := none)
    (threshold_sigma : Option ℚ := none) (enabled : Bool := true) : Monitor :=
  let config :=
    match dlookup m.configs name with
    | some existing =>
        { algorithm := algorithm
          threshold := threshold.getD existing.threshold
          drift := drift.getD existing.drift
          reference_mean :=
            match reference_mean with
            | some r => some r
            | none => existing.reference_mean
          alpha := alpha.getD existing.alpha
          threshold_sigma := threshold_sigma.getD existing.threshold_sigma
          enabled := enabled
          description := existing.description : MetricConfig }
    | none =>
        { algorithm := algorithm
          threshold := pyOr threshold 5
          drift := pyOr drift (1 / 2)
          reference_mean := reference_mean
          alpha := pyOr alpha (3 / 10)
          threshold_sigma := pyOr threshold_sigma 3
          enabled := enabled
          description := "Custom metric: " ++ name : MetricConfig }
  m.updateMetricConfig name config

/-! ### Concrete states used by the scenario theorems -/

/-- Monitor state used to refute the C7 reading that `reset` clears the
notifier's rate-limit timestamp window. -/
def c7Monitor : Monitor :=
  { min_anomaly_duration := 3
    configs := []
    detectors := [("cpu_percent", CUMSUM.init 5 (1 / 2))]
    ewma_detectors := [("net_sent_mb", EWMA.init (1 / 10) 5)]
    anomaly_history := []
    anomaly_counters := [("cpu_percent", 4)]
    last_metric_values := [("cpu_percent", 95)]
    notifier := some
      { Notifier.init 10 true with
          alert_timestamps := [("cpu_percent", [5])]
          alert_states := [("cpu_percent", true)]
          recovery_sent := [("cpu_percent", true)] } }

/-- The anomaly dict used by the rate-limiting scenario (the one from
`tests/test_notifiers.py::test_rate_limiting`). -/
def c5Anomaly : SustainedAnomaly :=
  { metric := "cpu_percent", value := 95, score := 12, algorithm := "CUMSUM",
    configInfo := [("threshold", 25), ("drift", 5)], severity := "medium",
    duration := 3, timestamp := "2025-01-01T12:00:00" }

/-- First of three back-to-back alert attempts against a notifier with
`rate_limit_per_hour = 2`, all within the window, transport succeeding. -/
def c5Attempt1 : Notifier × Bool :=
  (Notifier.init 2 true).sendAnomalyAlert 10000 true c5Anomaly

/-- Second attempt, 10 seconds later. -/
def c5Attempt2 : Notifier × Bool :=
  c5Attempt1.1.sendAnomalyAlert 10010 true c5Anomaly

/-- Third attempt, 20 seconds later. -/
def c5Attempt3 : Notifier × Bool :=
  c5Attempt2.1.sendAnomalyAlert 10020 true c5Anomaly

/-- Notifier state for the C6 counterexample: one stale alert timestamp
(older than the 1-hour window) for metric `m`. -/
def c6Notifier : Notifier :=
  { Notifier.init 10 true with alert_timestamps := [("m", [0])] }

/-- The anomaly dict used by the C6 counterexample. -/
def c6Anomaly : SustainedAnomaly :=
  { metric := "m", value := 95, score := 12, algorithm := "CUMSUM",
    configInfo := [], severity := "medium", duration := 3, timestamp := "t" }

/-- Config of the metric driving the C3/C4 alert scenarios: CUMSUM with
threshold 1, drift 0, reference 0, so a sample of 10 is raw-positive
immediately. -/
def alarmConfig : MetricConfig :=
  { algorithm := "CUMSUM", threshold := 1, drift := 0, reference_mean := some 0,
    alpha := 3 / 10, threshold_sigma := 3, enabled := true, description := "" }

/-- The matching detector instance (reference already seeded). -/
def alarmDetector : CUMSUM :=
  { threshold := 1, drift := 0, cumsum_pos := 0, cumsum_neg := 0,
    reference_mean := some 0 }

/-- Monitor for the C3/C4 scenarios: `min_anomaly_duration = 1` (the first
raw positive is already sustained), a Discord notifier with a generous
rate limit (never rate limited) and recovery notifications enabled. -/
def alarmMonitor : Monitor :=
  { min_anomaly_duration := 1
    configs := [("m", alarmConfig)]
    detectors := [("m", alarmDetector)]
    ewma_detectors := []
    anomaly_history := []
    anomaly_counters := []
    last_metric_values := []
    notifier := some (Notifier.init 10 true) }

/-- Cycle 1: the metric jumps to 10, goes sustained, and the gateway —
previously NORMAL — should dispatch exactly one alert. -/
noncomputable def c3Cycle : Monitor × CheckResult :=
  alarmMonitor.checkMetrics 10000 true [("m", 10)] "2025-01-01T12:00:00"

/-- Cycle 2: the metric's sample is gone (no raw positive), a recovery
transition for a metric whose counter had reached `min_anomaly_duration`. -/
noncomputable def c4Cycle2 : Monitor × CheckResult :=
  c3Cycle.1.checkMetrics 10030 true [] "2025-01-01T12:00:30"

/-- Monitor for the C2 debounce-streak scenario: one configured metric
with a given detector, no notifier, fresh counters. -/
def streakMonitor (minDur : ℕ) (name : String) (d : CUMSUM) (cfg : MetricConfig) :
    Monitor :=
  { min_anomaly_duration := minDur
    configs := [(name, cfg)]
    detectors := [(name, d)]
    ewma_detectors := []
    anomaly_history := []
    anomaly_counters := []
    last_metric_values := []
    notifier := none }

/-- Monitor for the C10 absent-sample scenario: one configured metric with
a CUMSUM detector, an existing consecutive-anomaly count `c₀`, a recorded
last value and a notifier. -/
def c10Monitor (D : ℕ) (name : String) (d : CUMSUM) (cfg : MetricConfig)
    (c₀ : ℕ) (lastV : ℚ) (n : Notifier) : Monitor :=
  { min_anomaly_duration := D
    configs := [(name, cfg)]
    detectors := [(name, d)]
    ewma_detectors := []
    anomaly_history := []
    anomaly_counters := [(name, c₀)]
    last_metric_values := [(name, lastV)]
    notifier := some n }

/-! ## Lemmas -/

@[simp] theorem dlookup_nil {α : Type} (key : String) :
    dlookup ([] : List (String × α)) key = none := rfl

@[simp] theorem dlookup_cons {α : Type} (k : String) (v : α) (rest : List (String × α))
    (key : String) :
    dlookup ((k, v) :: rest) key = if k = key then some v else dlookup rest key := rfl

theorem dlookup_dinsert_self {α : Type} (l : List (String × α)) (k : String) (v : α) :
    dlookup (dinsert l k v) k = some v := by
  induction l with
  | nil => simp [dinsert]
  | cons p rest ih =>
    obtain ⟨k', w⟩ := p
    by_cases h : k' = k <;> simp [dinsert, h, ih]

theorem dlookup_dinsert_ne {α : Type} (l : List (String × α)) (k key : String) (v : α)
    (h : k ≠ key) : dlookup (dinsert l k v) key = dlookup l key := by
  induction l with
  | nil => simp [dinsert, h]
  | cons p rest ih =>
    obtain ⟨k', w⟩ := p
    by_cases h' : k' = k
    · subst h'
      simp [dinsert, h]
    · simp only [dinsert, if_neg h']
      by_cases h'' : k' = key <;> simp [h'', ih]

theorem dlookup_derase_self {α : Type} (l : List (String × α)) (k : String) :
    dlookup (derase l k) k = none := by
  induction l with
  | nil => simp [derase]
  | cons p rest ih =>
    obtain ⟨k', w⟩ := p
    by_cases h : k' = k <;> simp [derase, h, ih]

theorem dkeys_dinsert {α : Type} (l : List (String × α)) (k : String) (v : α) :
    dkeys (dinsert l k v) = if (dlookup l k).isSome then dkeys l else dkeys l ++ [k] := by
  induction l with
  | nil => simp [dinsert, dkeys]
  | cons p rest ih =>
    obtain ⟨k', w⟩ := p
    by_cases h : k' = k
    · simp [dinsert, dkeys, h]
    · simp only [dinsert, if_neg h, dkeys, List.map_cons, dlookup_cons]
      simp only [dkeys] at ih
      by_cases h' : (dlookup rest k).isSome <;> simp [h, h', ih]

theorem dlookup_isSome_iff_mem_dkeys {α : Type} (l : List (String × α)) (k : String) :
    (dlookup l k).isSome ↔ k ∈ dkeys l := by
  induction l with
  | nil => simp [dkeys]
  | cons p rest ih =>
    obtain ⟨k', w⟩ := p
    by_cases h : k' = k
    · subst h
      simp [dkeys]
    · simp only [dlookup_cons, if_neg h, dkeys, List.map_cons, List.mem_cons, ih]
      constructor
      · exact fun hm => Or.inr hm
      · rintro (hk | hm)
        · exact absurd hk.symm h
        · exact hm

/-! ### Notifier lemmas -/

theorem updateMetricState_sent (n : Notifier) (metric : String) (b : Bool) :
    (n.updateMetricState metric b).sent_webhooks = n.sent_webhooks := rfl

theorem updateMetricState_alert_states (n : Notifier) (metric : String) (b : Bool) :
    (n.updateMetricState metric b).alert_states = dinsert n.alert_states metric b := rfl

/-- `check_metrics` calls `update_metric_state(name, False)` right before
`send_recovery_notification(name, ...)`; the cleared alarm state then trips
the `alert_states` guard of the latter, which returns `False` without
touching the notifier at all. -/
theorem sendRecovery_after_clear (n : Notifier) (now : ℚ) (ok : Bool)
    (metric : String) (v : ℚ) :
    (n.updateMetricState metric false).sendRecoveryNotification now ok metric v
      = (n.updateMetricState metric false, false) := by
  have hstate :
      (dlookup (n.updateMetricState metric false).alert_states metric).getD false
        = false := by
    simp [Notifier.updateMetricState, dlookup_dinsert_self]
  cases he : (n.updateMetricState metric false).enable_recovery <;>
    simp [Notifier.sendRecoveryNotification, he, hstate]

/-- `check_metrics` calls `update_metric_state(name, True)` for every
sustained metric before the alert loop; `send_anomaly_alert` then finds
`alert_states[name]` set and returns `False` on the dedupe path (after the
rate-limit check has pruned the window), never reaching the transport. -/
theorem sendAnomalyAlert_dedup (n : Notifier) (now : ℚ) (ok : Bool)
    (a : SustainedAnomaly)
    (h : (dlookup n.alert_states a.metric).getD false = true) :
    (n.sendAnomalyAlert now ok a).1.sent_webhooks = n.sent_webhooks ∧
    (n.sendAnomalyAlert now ok a).1.alert_states = n.alert_states := by
  by_cases hL : (n.isRateLimited now a.metric).2
  · refine ⟨?_, ?_⟩ <;> (simp [Notifier.sendAnomalyAlert, hL]; rfl)
  · refine ⟨?_, ?_⟩ <;>
      (simp [Notifier.sendAnomalyAlert, hL,
        show (dlookup (n.isRateLimited now a.metric).1.alert_states a.metric).getD false
          = true from h]; rfl)

/-! ### Counter-reset loop lemmas -/

theorem resetStep_sent (now : ℚ) (ok : Bool) (anomalyNames previousSustained : List String)
    (lastVals : List (String × ℚ)) (acc : List (String × ℕ) × Option Notifier)
    (name : String) :
    ((resetStep now ok anomalyNames previousSustained lastVals acc name).2).map
        (fun n => n.sent_webhooks)
      = acc.2.map (fun n => n.sent_webhooks) := by
  unfold resetStep
  split
  · rfl
  · cases hn : acc.2 with
    | none => simp [hn]
    | some n =>
      simp only [hn]
      split
      · simp [sendRecovery_after_clear, updateMetricState_sent]
      · rfl

theorem resetFold_sent (now : ℚ) (ok : Bool) (anomalyNames previousSustained : List String)
    (lastVals : List (String × ℚ)) (keys : List String)
    (acc : List (String × ℕ) × Option Notifier) :
    ((keys.foldl (resetStep now ok anomalyNames previousSustained lastVals) acc).2).map
        (fun n => n.sent_webhooks)
      = acc.2.map (fun n => n.sent_webhooks) := by
  induction keys generalizing acc with
  | nil => rfl
  | cons k rest ih =>
    rw [List.foldl_cons, ih, resetStep_sent]

theorem resetFold_none (now : ℚ) (ok : Bool) (anomalyNames previousSustained : List String)
    (lastVals : List (String × ℚ)) (keys : List String)
    (acc : List (String × ℕ) × Option Notifier) (h : acc.2 = none) :
    (keys.foldl (resetStep now ok anomalyNames previousSustained lastVals) acc).2 = none := by
  have := resetFold_sent now ok anomalyNames previousSustained lastVals keys acc
  rw [h] at this
  cases hf : (keys.foldl (resetStep now ok anomalyNames previousSustained lastVals) acc).2
  · rfl
  · rw [hf] at this
    simp at this

/-! ### Notifier state-update loop lemmas -/

theorem stateUpdateFold_none (metrics : List (String × ℚ)) (names : List String)
    (vals : List (String × ℚ)) :
    names.foldl (stateUpdateStep metrics) (none, vals) = (none, vals) := by
  induction names with
  | nil => rfl
  | cons k rest ih => exact ih

/-- The state-update loop keeps the notifier present, leaves the outbound
trace unchanged, only ever sets alarm flags to `true` (so set flags stay
set), and sets the flag of every metric in the list. -/
theorem stateUpdateFold_some (metrics : List (String × ℚ)) (names : List String)
    (n : Notifier) (vals : List (String × ℚ)) :
    ∃ n' vals', names.foldl (stateUpdateStep metrics) (some n, vals) = (some n', vals') ∧
      n'.sent_webhooks = n.sent_webhooks ∧
      (∀ x, dlookup n.alert_states x = some true → dlookup n'.alert_states x = some true) ∧
      (∀ x ∈ names, dlookup n'.alert_states x = some true) := by
  induction names generalizing n vals with
  | nil => exact ⟨n, vals, rfl, rfl, fun x hx => hx, by simp⟩
  | cons k rest ih =>
    obtain ⟨n', vals', hfold, hsent, hmono, hall⟩ :=
      ih (n.updateMetricState k true)
        (match dlookup metrics k with
         | some v => dinsert vals k v
         | none => vals)
    refine ⟨n', vals', ?_, ?_, ?_, ?_⟩
    · rw [List.foldl_cons]
      exact hfold
    · rw [hsent, updateMetricState_sent]
    · intro x hx
      refine hmono x ?_
      rw [updateMetricState_alert_states]
      by_cases hk : k = x
      · subst hk
        exact dlookup_dinsert_self _ _ _
      · rw [dlookup_dinsert_ne _ _ _ _ hk]
        exact hx
    · intro x hx
      rcases List.mem_cons.mp hx with hk | hx'
      · subst hk
        refine hmono x ?_
        rw [updateMetricState_alert_states]
        exact dlookup_dinsert_self _ _ _
      · exact hall x hx'

/-! ### Alert loop lemmas -/

theorem alertFold_none (now : ℚ) (ok : Bool) (l : List SustainedAnomaly) :
    l.foldl (alertStep now ok) none = none := by
  induction l with
  | nil => rfl
  | cons a rest ih => exact ih

/-- The alert loop of `check_metrics` never reaches the transport: every
sustained metric's alarm flag was set by the state-update loop just
before, so each `send_anomaly_alert` exits on the dedupe path. -/
theorem alertFold_sent (now : ℚ) (ok : Bool) (l : List SustainedAnomaly)
    (n : Notifier) (h : ∀ a ∈ l, (dlookup n.alert_states a.metric).getD false = true) :
    ∃ n', l.foldl (alertStep now ok) (some n) = some n' ∧
      n'.sent_webhooks = n.sent_webhooks := by
  induction l generalizing n with
  | nil => exact ⟨n, rfl, rfl⟩
  | cons a rest ih =>
    obtain ⟨hsent, hstates⟩ :=
      sendAnomalyAlert_dedup n now ok a (h a (List.mem_cons_self a rest))
    obtain ⟨n', hfold, hsent'⟩ := ih (n.sendAnomalyAlert now ok a).1 (by
      intro b hb
      rw [hstates]
      exact h b (List.mem_cons_of_mem a hb))
    refine ⟨n', ?_, hsent'.trans hsent⟩
    rw [List.foldl_cons]
    exact hfold

/-! ### Sustained-filter lemmas -/

theorem sustainedStep_pos (minDur : ℕ) (ts : String) (st : SustState) (a : RawAnomaly)
    (hc : minDur ≤ bumpedCount st a) :
    sustainedStep minDur ts st a =
      { counters := dinsert st.counters a.metric (bumpedCount st a)
        sustained := st.sustained ++ [promote minDur ts a (bumpedCount st a)]
        anomalyNames :=
          if st.anomalyNames.contains a.metric then st.anomalyNames
          else st.anomalyNames ++ [a.metric]
        sustainedNames :=
          if st.sustainedNames.contains a.metric then st.sustainedNames
          else st.sustainedNames ++ [a.metric] } := by
  simp only [sustainedStep, bumpedCount, promote] at hc ⊢
  rw [if_pos hc]

theorem sustainedStep_neg (minDur : ℕ) (ts : String) (st : SustState) (a : RawAnomaly)
    (hc : ¬ minDur ≤ bumpedCount st a) :
    sustainedStep minDur ts st a =
      { counters := dinsert st.counters a.metric (bumpedCount st a)
        sustained := st.sustained
        anomalyNames :=
          if st.anomalyNames.contains a.metric then st.anomalyNames
          else st.anomalyNames ++ [a.metric]
        sustainedNames := st.sustainedNames } := by
  simp only [sustainedStep, bumpedCount] at hc ⊢
  rw [if_neg hc]

theorem sustainedStep_pres (minDur : ℕ) (ts : String) (st : SustState) (b : RawAnomaly)
    (h : ∀ a ∈ st.sustained, a.metric ∈ st.sustainedNames) :
    ∀ a ∈ (sustainedStep minDur ts st b).sustained,
      a.metric ∈ (sustainedStep minDur ts st b).sustainedNames := by
  intro a ha
  by_cases hc : minDur ≤ bumpedCount st b
  · rw [sustainedStep_pos minDur ts st b hc] at ha ⊢
    simp only at ha ⊢
    rcases List.mem_append.mp ha with hold | hnew
    · by_cases hm : st.sustainedNames.contains b.metric
      · rw [if_pos hm]
        exact h a hold
      · rw [if_neg hm]
        exact List.mem_append_left _ (h a hold)
    · have ha' : a = promote minDur ts b (bumpedCount st b) := by
        simpa using hnew
      subst ha'
      by_cases hm : st.sustainedNames.contains b.metric
      · rw [if_pos hm]
        exact List.elem_iff.mp hm
      · rw [if_neg hm]
        exact List.mem_append_right _ (by simp [promote])
  · rw [sustainedStep_neg minDur ts st b hc] at ha ⊢
    exact h a ha

theorem sustainedFold_sustained_names (minDur : ℕ) (ts : String) (l : List RawAnomaly)
    (st : SustState) (h : ∀ a ∈ st.sustained, a.metric ∈ st.sustainedNames) :
    ∀ a ∈ (l.foldl (sustainedStep minDur ts) st).sustained,
      a.metric ∈ (l.foldl (sustainedStep minDur ts) st).sustainedNames := by
  induction l generalizing st with
  | nil => exact h
  | cons b rest ih =>
    rw [List.foldl_cons]
    exact ih (sustainedStep minDur ts st b) (sustainedStep_pres minDur ts st b h)

theorem sustainedStep_counters (minDur : ℕ) (ts : String) (st : SustState)
    (b : RawAnomaly) :
    (sustainedStep minDur ts st b).counters
      = dinsert st.counters b.metric (bumpedCount st b) := by
  by_cases hc : minDur ≤ bumpedCount st b
  · rw [sustainedStep_pos minDur ts st b hc]
  · rw [sustainedStep_neg minDur ts st b hc]

theorem sustainedFold_counters_notmem (minDur : ℕ) (ts : String)
    (l : List RawAnomaly) (st : SustState) (x : String)
    (hx : x ∉ l.map RawAnomaly.metric) :
    dlookup (l.foldl (sustainedStep minDur ts) st).counters x
      = dlookup st.counters x := by
  induction l generalizing st with
  | nil => rfl
  | cons b rest ih =>
    have hxb : b.metric ≠ x := by
      intro he
      exact hx (by simp [he])
    have hxr : x ∉ rest.map RawAnomaly.metric := by
      intro hr
      exact hx (by simp [hr])
    rw [List.foldl_cons, ih _ hxr, sustainedStep_counters,
      dlookup_dinsert_ne _ _ _ _ hxb]

theorem sustainedFold_counters_mem (minDur : ℕ) (ts : String)
    (l : List RawAnomaly) (st : SustState)
    (hnodup : (l.map RawAnomaly.metric).Nodup) :
    ∀ a ∈ l, dlookup (l.foldl (sustainedStep minDur ts) st).counters a.metric
      = some ((dlookup st.counters a.metric).getD 0 + 1) := by
  induction l generalizing st with
  | nil => intro a ha; cases ha
  | cons b rest ih =>
    rw [List.map_cons] at hnodup
    obtain ⟨hb, htail⟩ := List.nodup_cons.mp hnodup
    intro a ha
    rw [List.foldl_cons]
    rcases List.mem_cons.mp ha with he | ha'
    · subst he
      rw [sustainedFold_counters_notmem _ _ _ _ _ hb, sustainedStep_counters,
        dlookup_dinsert_self]
      rfl
    · have hba : b.metric ≠ a.metric := by
        intro he
        exact hb (he ▸ List.mem_map_of_mem RawAnomaly.metric ha')
      rw [ih _ htail a ha', sustainedStep_counters,
        dlookup_dinsert_ne _ _ _ _ hba]

theorem sustainedStep_sustained_notmem (minDur : ℕ) (ts : String) (st : SustState)
    (b : RawAnomaly) (x : String) (hxb : b.metric ≠ x) :
    ((∃ y ∈ (sustainedStep minDur ts st b).sustained, y.metric = x)
      ↔ (∃ y ∈ st.sustained, y.metric = x)) := by
  by_cases hc : minDur ≤ bumpedCount st b
  · rw [sustainedStep_pos minDur ts st b hc]
    simp only [List.mem_append, List.mem_singleton]
    constructor
    · rintro ⟨y, hy | hy, hyx⟩
      · exact ⟨y, hy, hyx⟩
      · subst hy
        exact absurd hyx hxb
    · rintro ⟨y, hy, hyx⟩
      exact ⟨y, Or.inl hy, hyx⟩
  · rw [sustainedStep_neg minDur ts st b hc]

theorem sustainedFold_sustained_notmem (minDur : ℕ) (ts : String)
    (l : List RawAnomaly) (st : SustState) (x : String)
    (hx : x ∉ l.map RawAnomaly.metric) :
    ((∃ y ∈ (l.foldl (sustainedStep minDur ts) st).sustained, y.metric = x)
      ↔ (∃ y ∈ st.sustained, y.metric = x)) := by
  induction l generalizing st with
  | nil => exact Iff.rfl
  | cons b rest ih =>
    have hxb : b.metric ≠ x := by
      intro he
      exact hx (by simp [he])
    have hxr : x ∉ rest.map RawAnomaly.metric := by
      intro hr
      exact hx (by simp [hr])
    rw [List.foldl_cons]
    exact (ih _ hxr).trans (sustainedStep_sustained_notmem minDur ts st b x hxb)

theorem sustainedFold_sustained_mem (minDur : ℕ) (ts : String)
    (l : List RawAnomaly) (st : SustState)
    (hnodup : (l.map RawAnomaly.metric).Nodup) :
    ∀ a ∈ l, ((∃ y ∈ (l.foldl (sustainedStep minDur ts) st).sustained, y.metric = a.metric)
      ↔ (∃ y ∈ st.sustained, y.metric = a.metric)
        ∨ minDur ≤ (dlookup st.counters a.metric).getD 0 + 1) := by
  induction l generalizing st with
  | nil => intro a ha; cases ha
  | cons b rest ih =>
    rw [List.map_cons] at hnodup
    obtain ⟨hb, htail⟩ := List.nodup_cons.mp hnodup
    intro a ha
    rw [List.foldl_cons]
    rcases List.mem_cons.mp ha with he | ha'
    · subst he
      rw [sustainedFold_sustained_notmem _ _ _ _ _ hb]
      by_cases hc : minDur ≤ bumpedCount st a
      · rw [sustainedStep_pos minDur ts st a hc]
        simp only [List.mem_append, List.mem_singleton]
        constructor
        · intro _
          exact Or.inr hc
        · intro _
          exact ⟨promote minDur ts a (bumpedCount st a), Or.inr rfl, rfl⟩
      · rw [sustainedStep_neg minDur ts st a hc]
        simp only
        constructor
        · exact Or.inl
        · rintro (hy | hcc)
          · exact hy
          · exact absurd hcc hc
    · have hba : b.metric ≠ a.metric := by
        intro he
        exact hb (he ▸ List.mem_map_of_mem RawAnomaly.metric ha')
      rw [ih _ htail a ha', sustainedStep_sustained_notmem minDur ts st b a.metric hba,
        sustainedStep_counters, dlookup_dinsert_ne _ _ _ _ hba]

theorem sustainedFold_severity (minDur : ℕ) (ts : String)
    (l : List RawAnomaly) (st : SustState)
    (h : ∀ y ∈ st.sustained,
      y.severity = (if minDur * 2 < y.duration then "high" else "medium")
        ∧ minDur ≤ y.duration) :
    ∀ y ∈ (l.foldl (sustainedStep minDur ts) st).sustained,
      y.severity = (if minDur * 2 < y.duration then "high" else "medium")
        ∧ minDur ≤ y.duration := by
  induction l generalizing st with
  | nil => exact h
  | cons b rest ih =>
    rw [List.foldl_cons]
    refine ih (sustainedStep minDur ts st b) ?_
    intro y hy
    by_cases hc : minDur ≤ bumpedCount st b
    · rw [sustainedStep_pos minDur ts st b hc] at hy
      simp only [List.mem_append, List.mem_singleton] at hy
      rcases hy with hy | hy
      · exact h y hy
      · subst hy
        exact ⟨rfl, hc⟩
    · rw [sustainedStep_neg minDur ts st b hc] at hy
      exact h y hy

theorem sustainedStep_anomalyNames (minDur : ℕ) (ts : String) (st : SustState)
    (b : RawAnomaly) (x : String) :
    (x ∈ (sustainedStep minDur ts st b).anomalyNames
      ↔ x ∈ st.anomalyNames ∨ x = b.metric) := by
  have hshape : (sustainedStep minDur ts st b).anomalyNames
      = (if st.anomalyNames.contains b.metric then st.anomalyNames
         else st.anomalyNames ++ [b.metric]) := by
    by_cases hc : minDur ≤ bumpedCount st b
    · rw [sustainedStep_pos minDur ts st b hc]
    · rw [sustainedStep_neg minDur ts st b hc]
  rw [hshape]
  by_cases hm : st.anomalyNames.contains b.metric
  · rw [if_pos hm]
    constructor
    · exact Or.inl
    · rintro (hx | hx)
      · exact hx
      · subst hx
        exact List.elem_iff.mp hm
  · rw [if_neg hm]
    simp [List.mem_append, eq_comm]

theorem sustainedFold_anomalyNames (minDur : ℕ) (ts : String)
    (l : List RawAnomaly) (st : SustState) (x : String) :
    (x ∈ (l.foldl (sustainedStep minDur ts) st).anomalyNames
      ↔ x ∈ st.anomalyNames ∨ x ∈ l.map RawAnomaly.metric) := by
  induction l generalizing st with
  | nil => simp
  | cons b rest ih =>
    rw [List.foldl_cons, ih, sustainedStep_anomalyNames]
    simp only [List.map_cons, List.mem_cons]
    tauto

theorem sustainedFold_keys_nodup (minDur : ℕ) (ts : String)
    (l : List RawAnomaly) (st : SustState)
    (h : (dkeys st.counters).Nodup) :
    (dkeys (l.foldl (sustainedStep minDur ts) st).counters).Nodup := by
  induction l generalizing st with
  | nil => exact h
  | cons b rest ih =>
    rw [List.foldl_cons]
    refine ih (sustainedStep minDur ts st b) ?_
    rw [sustainedStep_counters, dkeys_dinsert]
    by_cases hs : (dlookup st.counters b.metric).isSome
    · rw [if_pos hs]
      exact h
    · rw [if_neg hs]
      have hnm : b.metric ∉ dkeys st.counters := by
        intro hmem
        exact hs ((dlookup_isSome_iff_mem_dkeys _ _).mpr hmem)
      simp [List.nodup_append, h, hnm]

theorem sustainedFilter_names (minDur : ℕ) (ts : String)
    (counters : List (String × ℕ)) (detected : List RawAnomaly) :
    ∀ a ∈ (sustainedFilter minDur ts counters detected).sustained,
      a.metric ∈ (sustainedFilter minDur ts counters detected).sustainedNames := by
  unfold sustainedFilter
  exact sustainedFold_sustained_names minDur ts detected _ (by simp)

theorem sustainedFilter_counters_mem (minDur : ℕ) (ts : String)
    (counters : List (String × ℕ)) (detected : List RawAnomaly)
    (hnodup : (detected.map RawAnomaly.metric).Nodup) :
    ∀ a ∈ detected,
      dlookup (sustainedFilter minDur ts counters detected).counters a.metric
        = some ((dlookup counters a.metric).getD 0 + 1) := by
  unfold sustainedFilter
  exact sustainedFold_counters_mem minDur ts detected _ hnodup

theorem sustainedFilter_counters_notmem (minDur : ℕ) (ts : String)
    (counters : List (String × ℕ)) (detected : List RawAnomaly) (x : String)
    (hx : x ∉ detected.map RawAnomaly.metric) :
    dlookup (sustainedFilter minDur ts counters detected).counters x
      = dlookup counters x := by
  unfold sustainedFilter
  exact sustainedFold_counters_notmem minDur ts detected _ x hx

theorem sustainedFilter_anomalyNames (minDur : ℕ) (ts : String)
    (counters : List (String × ℕ)) (detected : List RawAnomaly) (x : String) :
    (x ∈ (sustainedFilter minDur ts counters detected).anomalyNames
      ↔ x ∈ detected.map RawAnomaly.metric) := by
  unfold sustainedFilter
  rw [sustainedFold_anomalyNames]
  simp

theorem sustainedFilter_sustained_iff (minDur : ℕ) (ts : String)
    (counters : List (String × ℕ)) (detected : List RawAnomaly)
    (hnodup : (detected.map RawAnomaly.metric).Nodup) :
    ∀ a ∈ detected,
      ((∃ y ∈ (sustainedFilter minDur ts counters detected).sustained, y.metric = a.metric)
        ↔ minDur ≤ (dlookup counters a.metric).getD 0 + 1) := by
  unfold sustainedFilter
  intro a ha
  rw [sustainedFold_sustained_mem minDur ts detected _ hnodup a ha]
  simp

theorem sustainedFilter_severity (minDur : ℕ) (ts : String)
    (counters : List (String × ℕ)) (detected : List RawAnomaly) :
    ∀ y ∈ (sustainedFilter minDur ts counters detected).sustained,
      y.severity = (if minDur * 2 < y.duration then "high" else "medium")
        ∧ minDur ≤ y.duration := by
  unfold sustainedFilter
  exact sustainedFold_severity minDur ts detected _ (by simp)

theorem sustainedFilter_keys_nodup (minDur : ℕ) (ts : String)
    (counters : List (String × ℕ)) (detected : List RawAnomaly)
    (h : (dkeys counters).Nodup) :
    (dkeys (sustainedFilter minDur ts counters detected).counters).Nodup := by
  unfold sustainedFilter
  exact sustainedFold_keys_nodup minDur ts detected _ h

/-! ### Counter-reset loop: counter lemmas -/

theorem resetStep_skip (now : ℚ) (ok : Bool) (anom prevS : List String)
    (lastVals : List (String × ℚ)) (acc : List (String × ℕ) × Option Notifier)
    (k : String) (hk : anom.contains k = true) :
    resetStep now ok anom prevS lastVals acc k = acc := by
  unfold resetStep
  rw [if_pos hk]

theorem resetStep_go_counters (now : ℚ) (ok : Bool) (anom prevS : List String)
    (lastVals : List (String × ℚ)) (acc : List (String × ℕ) × Option Notifier)
    (k : String) (hk : anom.contains k = false) :
    (resetStep now ok anom prevS lastVals acc k).1 = dinsert acc.1 k 0 := by
  unfold resetStep
  rw [if_neg (by rw [hk]; simp)]

theorem resetFold_counters_notkey (now : ℚ) (ok : Bool) (anom prevS : List String)
    (lastVals : List (String × ℚ)) (keys : List String) :
    ∀ (acc : List (String × ℕ) × Option Notifier) (x : String), x ∉ keys →
      dlookup (keys.foldl (resetStep now ok anom prevS lastVals) acc).1 x
        = dlookup acc.1 x := by
  induction keys with
  | nil => intro acc x _; rfl
  | cons k rest ih =>
    intro acc x hx
    have hkx : k ≠ x := fun he => hx (he ▸ List.mem_cons_self k rest)
    have hxr : x ∉ rest := fun hr => hx (List.mem_cons_of_mem k hr)
    rw [List.foldl_cons, ih _ x hxr]
    by_cases hk : anom.contains k
    · rw [resetStep_skip now ok anom prevS lastVals acc k hk]
    · rw [resetStep_go_counters now ok anom prevS lastVals acc k (by simpa using hk),
        dlookup_dinsert_ne _ _ _ _ hkx]

theorem resetFold_counters_protected (now : ℚ) (ok : Bool) (anom prevS : List String)
    (lastVals : List (String × ℚ)) (keys : List String) :
    ∀ (acc : List (String × ℕ) × Option Notifier) (x : String),
      anom.contains x = true →
      dlookup (keys.foldl (resetStep now ok anom prevS lastVals) acc).1 x
        = dlookup acc.1 x := by
  induction keys with
  | nil => intro acc x _; rfl
  | cons k rest ih =>
    intro acc x hx
    rw [List.foldl_cons, ih _ x hx]
    by_cases hk : anom.contains k
    · rw [resetStep_skip now ok anom prevS lastVals acc k hk]
    · have hkx : k ≠ x := fun he => hk (he ▸ hx)
      rw [resetStep_go_counters now ok anom prevS lastVals acc k (by simpa using hk),
        dlookup_dinsert_ne _ _ _ _ hkx]

theorem resetFold_counters_zero (now : ℚ) (ok : Bool) (anom prevS : List String)
    (lastVals : List (String × ℚ)) (keys : List String) :
    ∀ (acc : List (String × ℕ) × Option Notifier) (x : String),
      anom.contains x = false → x ∈ keys → keys.Nodup →
      dlookup (keys.foldl (resetStep now ok anom prevS lastVals) acc).1 x
        = some 0 := by
  induction keys with
  | nil => intro acc x _ hmem _; cases hmem
  | cons k rest ih =>
    intro acc x hx hmem hnodup
    obtain ⟨hknr, hrest⟩ := List.nodup_cons.mp hnodup
    rw [List.foldl_cons]
    rcases List.mem_cons.mp hmem with he | hmem'
    · subst he
      rw [resetFold_counters_notkey now ok anom prevS lastVals rest _ x hknr,
        resetStep_go_counters now ok anom prevS lastVals acc x hx,
        dlookup_dinsert_self]
    · exact ih _ x hx hmem' hrest

/-- `check_metrics` returns as its final counters the counters of the
sustained filter, passed through the reset loop. -/
theorem checkMetrics_counters_eq (m : Monitor) (now : ℚ) (ok : Bool)
    (metrics : List (String × ℚ)) (ts : String) :
    (m.checkMetrics now ok metrics ts).1.anomaly_counters
      = ((dkeys (sustainedFilter m.min_anomaly_duration ts m.anomaly_counters
            (detectPhase m metrics).2.detected).counters).foldl
          (resetStep now ok
            (sustainedFilter m.min_anomaly_duration ts m.anomaly_counters
              (detectPhase m metrics).2.detected).anomalyNames
            (((sustainedFilter m.min_anomaly_duration ts m.anomaly_counters
              (detectPhase m metrics).2.detected).counters.filter
                (fun p => m.min_anomaly_duration ≤ p.2)).map (·.1))
            m.last_metric_values)
          ((sustainedFilter m.min_anomaly_duration ts m.anomaly_counters
            (detectPhase m metrics).2.detected).counters, m.notifier)).1 := rfl

/-- The anomalies of a `check_metrics` result are exactly the sustained
list of the sustained filter. -/
theorem checkMetrics_anomalies_eq (m : Monitor) (now : ℚ) (ok : Bool)
    (metrics : List (String × ℚ)) (ts : String) :
    (m.checkMetrics now ok metrics ts).2.anomalies
      = (sustainedFilter m.min_anomaly_duration ts m.anomaly_counters
          (detectPhase m metrics).2.detected).sustained := rfl

/-- The notification tail of a `check_metrics` cycle (counter-reset loop,
state-update loop, alert loop) never touches the outbound webhook trace:
`update_metric_state` precedes both send calls and trips their dedupe
guards. -/
theorem pipeline_sent (nopt : Option Notifier) (now : ℚ) (ok : Bool)
    (metrics lastVals : List (String × ℚ)) (s : SustState) (prev : List String)
    (hsus : ∀ a ∈ s.sustained, a.metric ∈ s.sustainedNames) :
    ((if s.sustained.isEmpty
        then (s.sustainedNames.foldl (stateUpdateStep metrics)
          (((dkeys s.counters).foldl
            (resetStep now ok s.anomalyNames prev lastVals) (s.counters, nopt)).2,
            lastVals)).1
        else s.sustained.foldl (alertStep now ok)
          (s.sustainedNames.foldl (stateUpdateStep metrics)
            (((dkeys s.counters).foldl
              (resetStep now ok s.anomalyNames prev lastVals) (s.counters, nopt)).2,
              lastVals)).1).map (fun n => n.sent_webhooks))
      = nopt.map (fun n => n.sent_webhooks) := by
  have hsent := resetFold_sent now ok s.anomalyNames prev lastVals
    (dkeys s.counters) (s.counters, nopt)
  cases hn2 : ((dkeys s.counters).foldl
      (resetStep now ok s.anomalyNames prev lastVals) (s.counters, nopt)).2 with
  | none =>
    rw [hn2] at hsent
    rw [stateUpdateFold_none]
    split
    · simpa using hsent
    · rw [alertFold_none]
      simpa using hsent
  | some n1 =>
    rw [hn2] at hsent
    obtain ⟨n2, vals2, hfold, hsent2, hmono, hall⟩ :=
      stateUpdateFold_some metrics s.sustainedNames n1 lastVals
    rw [hfold]
    split
    · simpa [hsent2] using hsent
    · obtain ⟨n3, hfold3, hsent3⟩ := alertFold_sent now ok s.sustained n2 (by
        intro a ha
        rw [hall a.metric (hsus a ha)]
        rfl)
      rw [hfold3]
      simpa [hsent3, hsent2] using hsent

/-- Through `check_metrics`, the webhook transport is never invoked at
all — neither for alerts nor for recoveries — whatever the monitor state,
samples, clock and transport behaviour. -/
theorem checkMetrics_sent_webhooks (m : Monitor) (now : ℚ) (ok : Bool)
    (metrics : List (String × ℚ)) (ts : String) :
    ((m.checkMetrics now ok metrics ts).1.notifier).map (fun n => n.sent_webhooks)
      = m.notifier.map (fun n => n.sent_webhooks) := by
  simp only [Monitor.checkMetrics]
  exact pipeline_sent m.notifier now ok metrics m.last_metric_values _ _
    (sustainedFilter_names _ _ _ _)

/-! ### Debounce-streak cycle lemmas -/

/-- One `check_metrics` cycle of the streak monitor in which the detector
fires but the bumped counter stays below `min_anomaly_duration`: the
counter advances to `c + 1` and nothing else changes; no sustained anomaly
is emitted. -/
theorem streak_cycle_fire (D : ℕ) (name : String) (d : CUMSUM) (cfg : MetricConfig)
    (v sc now : ℚ) (ok : Bool) (ts : String) (cs : List (String × ℕ)) (c : ℕ)
    (hupd : d.update v = (d, true, sc))
    (hts : name ≠ "timestamp")
    (hcs : cs = [] ∧ c = 0 ∨ cs = [(name, c)])
    (hlt : ¬ D ≤ c + 1) :
    ({ streakMonitor D name d cfg with anomaly_counters := cs }).checkMetrics now ok
        [(name, v)] ts
      = ({ streakMonitor D name d cfg with anomaly_counters := [(name, c + 1)] },
         { timestamp := ts, has_anomalies := false, anomaly_count := 0, anomalies := [],
           metrics := [(name, v)], scores := [(name, (sc : ℝ))] }) := by
  rcases hcs with ⟨hcs, hc0⟩ | hcs
  · subst hcs
    subst hc0
    simp [Monitor.checkMetrics, detectPhase, cumsumStep, ewmaStep, streakMonitor,
      sustainedFilter, sustainedStep, resetStep, stateUpdateStep, alertStep,
      dinsert, dkeys, hupd, hts, hlt, lastN]
  · subst hcs
    simp [Monitor.checkMetrics, detectPhase, cumsumStep, ewmaStep, streakMonitor,
      sustainedFilter, sustainedStep, resetStep, stateUpdateStep, alertStep,
      dinsert, dkeys, hupd, hts, hlt, lastN]

/-- One `check_metrics` cycle of the streak monitor with no sample for the
metric: every counter is reset to 0 and no sustained anomaly is emitted. -/
theorem streak_cycle_empty (D : ℕ) (name : String) (d : CUMSUM) (cfg : MetricConfig)
    (now : ℚ) (ok : Bool) (ts : String) (cs : List (String × ℕ)) (c : ℕ)
    (hcs : cs = [] ∨ cs = [(name, c)]) :
    ({ streakMonitor D name d cfg with anomaly_counters := cs }).checkMetrics now ok
        [] ts
      = ({ streakMonitor D name d cfg with
            anomaly_counters := cs.map (fun p => (p.1, 0)) },
         { timestamp := ts, has_anomalies := false, anomaly_count := 0, anomalies := [],
           metrics := [], scores := [] }) := by
  rcases hcs with hcs | hcs <;> subst hcs <;>
    simp [Monitor.checkMetrics, detectPhase, cumsumStep, ewmaStep, streakMonitor,
      sustainedFilter, sustainedStep, resetStep, stateUpdateStep, alertStep,
      dinsert, dkeys, lastN]

/-- Running the streak monitor for `j` raw-positive cycles (each below the
sustained threshold) followed by one empty cycle emits no sustained
anomaly in any cycle. -/
theorem streak_run (D : ℕ) (name : String) (d : CUMSUM) (cfg : MetricConfig)
    (v sc now : ℚ) (ok : Bool) (ts : String)
    (hupd : d.update v = (d, true, sc)) (hts : name ≠ "timestamp") :
    ∀ (j : ℕ) (cs : List (String × ℕ)) (c : ℕ),
      (cs = [] ∧ c = 0 ∨ cs = [(name, c)]) → (c + j < D ∨ j = 0) →
      ∀ r ∈ (({ streakMonitor D name d cfg with
            anomaly_counters := cs }).runCycles now ok ts
          (List.replicate j [(name, v)] ++ [[]])).2, r.anomalies = [] := by
  intro j
  induction j with
  | zero =>
    intro cs c hcs _ r hr
    rw [List.replicate_zero, List.nil_append] at hr
    have hcs' : cs = [] ∨ cs = [(name, c)] := by
      rcases hcs with ⟨h1, _⟩ | h1
      · exact Or.inl h1
      · exact Or.inr h1
    simp only [Monitor.runCycles,
      streak_cycle_empty D name d cfg now ok ts cs c hcs'] at hr
    rcases List.mem_cons.mp hr with he | he
    · subst he
      rfl
    · cases he
  | succ j ih =>
    intro cs c hcs hcond r hr
    have hlt : ¬ D ≤ c + 1 := by
      rcases hcond with hcond | hcond
      · omega
      · cases hcond
    rw [List.replicate_succ, List.cons_append] at hr
    simp only [Monitor.runCycles,
      streak_cycle_fire D name d cfg v sc now ok ts cs c hupd hts hcs hlt] at hr
    rcases List.mem_cons.mp hr with he | he
    · subst he
      rfl
    · refine ih [(name, c + 1)] (c + 1) (Or.inr rfl) ?_ r he
      rcases hcond with hcond | hcond
      · omega
      · cases hcond

/-! ## Claims -/

/-- C1: for every CUMSUM detector, the first update with the reference
unset sets the reference to the input and returns `(false, 0)`; every
subsequent update computes `deviation = value - reference - drift`, sets
`posAccumulator = max(0, pos + deviation)` and
`negAccumulator = max(0, neg - deviation)`, and with
`score = max(pos, neg)` returns `(true, score)` and zeroes both
accumulators when `score > threshold`, else returns `(false, score)`
keeping the computed accumulators. -/
theorem C1_cumsum_update (c : CUMSUM) (value : ℚ) :
    (c.reference_mean = none →
      c.update value = ({ c with reference_mean := some value }, false, 0)) ∧
    (∀ ref, c.reference_mean = some ref →
      (max (max 0 (c.cumsum_pos + (value - ref - c.drift)))
          (max 0 (c.cumsum_neg - (value - ref - c.drift))) > c.threshold →
        c.update value = ({ c with cumsum_pos := 0, cumsum_neg := 0 }, true,
          max (max 0 (c.cumsum_pos + (value - ref - c.drift)))
            (max 0 (c.cumsum_neg - (value - ref - c.drift))))) ∧
      (¬ max (max 0 (c.cumsum_pos + (value - ref - c.drift)))
          (max 0 (c.cumsum_neg - (value - ref - c.drift))) > c.threshold →
        c.update value = ({ c with
            cumsum_pos := max 0 (c.cumsum_pos + (value - ref - c.drift)),
            cumsum_neg := max 0 (c.cumsum_neg - (value - ref - c.drift)) }, false,
          max (max 0 (c.cumsum_pos + (value - ref - c.drift)))
            (max 0 (c.cumsum_neg - (value - ref - c.drift)))))) := by
  refine ⟨fun h => ?_, fun ref h => ⟨fun hgt => ?_, fun hle => ?_⟩⟩
  · simp [CUMSUM.update, h]
  · simp [CUMSUM.update, h, hgt]
  · simp [CUMSUM.update, h, hle]

/-- Witness for C1: the §8 end-to-end configuration
(threshold 10, drift 2, reference 30).  A fresh detector seeds the
reference from its first input; from accumulator 8, input 36 gives
deviation 4, score 12 > 10, hence `(true, 12)` with both accumulators
zeroed; from accumulator 0 the same input stays below threshold. -/
theorem C1_cumsum_update_witness :
    ((CUMSUM.init 10 2).update 36
      = ({ CUMSUM.init 10 2 with reference_mean := some 36 }, false, 0)) ∧
    (({ threshold := 10, drift := 2, cumsum_pos := 8, cumsum_neg := 0,
        reference_mean := some 30 : CUMSUM }).update 36
      = ({ threshold := 10, drift := 2, cumsum_pos := 0, cumsum_neg := 0,
           reference_mean := some 30 }, true, 12)) ∧
    (({ threshold := 10, drift := 2, cumsum_pos := 0, cumsum_neg := 0,
        reference_mean := some 30 : CUMSUM }).update 36
      = ({ threshold := 10, drift := 2, cumsum_pos := 4, cumsum_neg := 0,
           reference_mean := some 30 }, false, 4)) := by
  refine ⟨(C1_cumsum_update (CUMSUM.init 10 2) 36).1 rfl, ?_, ?_⟩
  · exact (((C1_cumsum_update
      { threshold := 10, drift := 2, cumsum_pos := 8, cumsum_neg := 0,
        reference_mean := some 30 } 36).2 30 rfl).1
      (by with_unfolding_all decide)).trans (by with_unfolding_all decide)
  · exact (((C1_cumsum_update
      { threshold := 10, drift := 2, cumsum_pos := 0, cumsum_neg := 0,
        reference_mean := some 30 } 36).2 30 rfl).2
      (by with_unfolding_all decide)).trans (by with_unfolding_all decide)

/-- C8: for both detector variants, resetting and then running any input
sequence gives exactly the run of a freshly constructed detector with the
same parameters; in particular CUMSUM's reset clears the reference, so the
next update reseeds it from its input. -/
theorem C8_reset_equals_fresh :
    (∀ (c : CUMSUM) (xs : List ℚ),
      CUMSUM.runSeq c.reset xs = CUMSUM.runSeq (CUMSUM.init c.threshold c.drift) xs) ∧
    (∀ (e : EWMA) (xs : List ℚ),
      EWMA.runSeq e.reset xs = EWMA.runSeq (EWMA.init e.alpha e.threshold_sigma) xs) ∧
    (∀ (c : CUMSUM) (value : ℚ),
      ((c.reset).update value).1.reference_mean = some value) := by
  exact ⟨fun c xs => rfl, fun e xs => rfl, fun c value => rfl⟩

/-- C7 counterexample: after `reset()`, the notifier's per-metric
recent-alert timestamp list is NOT cleared — it still holds the old
entry — although the claim says the notification state machine including
the sliding-window list is cleared. -/
theorem C7_counterexample :
    ((c7Monitor.reset).notifier.map Notifier.alert_timestamps
      = some [("cpu_percent", [5])]) ∧
    some [("cpu_percent", [(5 : ℚ)])]
      ≠ some ([] : List (String × List ℚ)) := by
  exact ⟨rfl, by simp⟩

/-- C7 amended: `reset()` clears every detector's state (CUMSUM
accumulators and reference, EWMA mean and variance), the debounce
counters, the history buffer and the notifier's per-metric `inAlarm` and
`recoverySent` flags, but it leaves the per-metric recent-alert timestamp
lists unchanged. -/
theorem C7_reset_amended (m : Monitor) :
    (m.reset).detectors
      = m.detectors.map (fun p => (p.1, CUMSUM.init p.2.threshold p.2.drift)) ∧
    (m.reset).ewma_detectors
      = m.ewma_detectors.map (fun p => (p.1, EWMA.init p.2.alpha p.2.threshold_sigma)) ∧
    (m.reset).anomaly_history = [] ∧
    (m.reset).anomaly_counters = [] ∧
    (m.reset).notifier.map Notifier.alert_states = m.notifier.map (fun _ => []) ∧
    (m.reset).notifier.map Notifier.recovery_sent = m.notifier.map (fun _ => []) ∧
    (m.reset).notifier.map Notifier.alert_timestamps
      = m.notifier.map Notifier.alert_timestamps := by
  obtain ⟨mad, cfgs, dets, edets, hist, cnts, lvals, nopt⟩ := m
  refine ⟨rfl, rfl, rfl, rfl, ?_, ?_, ?_⟩ <;> cases nopt <;> rfl

/-- C9: calling `configure_metric` on a metric that already has a
configuration without passing `algorithm` falls back to the parameter
default `'CUMSUM'` instead of preserving the stored algorithm: the merged
config has algorithm `'CUMSUM'`, a fresh CUMSUM detector (seeded from the
preserved `reference_mean`) replaces the metric's detector, and any EWMA
detector for the metric is removed. -/
theorem C9_configure_default_overwrites (m : Monitor) (name : String)
    (cfg : MetricConfig) (h : dlookup m.configs name = some cfg)
    (_halg : cfg.algorithm = "EWMA") :
    dlookup (m.configureMetric name).configs name
      = some { algorithm := "CUMSUM", threshold := cfg.threshold, drift := cfg.drift,
               reference_mean := cfg.reference_mean, alpha := cfg.alpha,
               threshold_sigma := cfg.threshold_sigma, enabled := true,
               description := cfg.description } ∧
    dlookup (m.configureMetric name).detectors name
      = some { threshold := cfg.threshold, drift := cfg.drift, cumsum_pos := 0,
               cumsum_neg := 0, reference_mean := cfg.reference_mean } ∧
    dlookup (m.configureMetric name).ewma_detectors name = none := by
  have hcfg : m.configureMetric name
      = m.updateMetricConfig name
          { algorithm := "CUMSUM", threshold := cfg.threshold, drift := cfg.drift,
            reference_mean := cfg.reference_mean, alpha := cfg.alpha,
            threshold_sigma := cfg.threshold_sigma, enabled := true,
            description := cfg.description } := by
    simp only [Monitor.configureMetric, h]
    cases cfg.reference_mean <;> rfl
  rw [hcfg]
  simp only [Monitor.updateMetricConfig]
  refine ⟨?_, ?_, ?_⟩
  · simp [dlookup_dinsert_self]
  · cases href : cfg.reference_mean <;>
      simp [href, dlookup_dinsert_self, CUMSUM.init, CUMSUM.set_reference]
  · simp [dlookup_derase_self]

/-- Witness for C9: a monitor whose metric `m` is configured for EWMA; the
defaulted call demotes it to CUMSUM and swaps the detector family. -/
theorem C9_configure_default_overwrites_witness :
    dlookup
      (({ min_anomaly_duration := 3
          configs := [("m", { algorithm := "EWMA", threshold := 5, drift := 1 / 2,
                              reference_mean := none, alpha := 3 / 10,
                              threshold_sigma := 3, enabled := true,
                              description := "d" : MetricConfig })]
          detectors := []
          ewma_detectors := [("m", EWMA.init (3 / 10) 3)]
          anomaly_history := [], anomaly_counters := [], last_metric_values := []
          notifier := none : Monitor }).configureMetric "m").ewma_detectors "m"
      = none := by
  exact (C9_configure_default_overwrites _ "m"
    { algorithm := "EWMA", threshold := 5, drift := 1 / 2, reference_mean := none,
      alpha := 3 / 10, threshold_sigma := 3, enabled := true, description := "d" }
    (by with_unfolding_all decide) rfl).2.2

/-- C5: with `rate_limit_per_hour = 2` and the transport succeeding, three
back-to-back `send_anomaly_alert` calls for the same metric report
`(true, false, false)`, not the claimed `(true, true, false)`: the second
attempt is dropped by the episode-dedupe check (`alert_states` was set by
the first call) although its pruned timestamp list holds only one entry —
fewer than the cap — so the drop is not decided by the pruned list holding
`rate_limit_per_hour` entries.  This contradicts the claim and the
repository's own test `tests/test_notifiers.py::test_rate_limiting`. -/
theorem C5_rate_limit_bug :
    c5Attempt1.2 = true ∧
    ((dlookup c5Attempt2.1.alert_timestamps "cpu_percent").getD []).length = 1 ∧
    c5Attempt2.2 = false ∧
    c5Attempt3.2 = false := by
  refine ⟨?_, ?_, ?_, ?_⟩ <;> with_unfolding_all decide

/-- C2: in every `check_metrics` cycle (with well-formed dict states:
duplicate-free counter keys and at most one raw positive per metric), each
raw-positive metric's counter is incremented — a first raw positive, with
old counter absent or 0, yields exactly 1; a sustained anomaly is emitted
for a raw-positive metric iff the incremented counter reaches
`min_anomaly_duration`; emitted anomalies carry severity `"medium"` when
their counter (= duration) is at most `2 * min_anomaly_duration` and
`"high"` when it exceeds it; every previously-counted metric without a raw
positive this cycle has its counter reset to exactly 0; and a raw-positive
streak of exactly `min_anomaly_duration - 1` cycles followed by one
non-positive cycle never emits a sustained anomaly. -/
theorem C2_debounce_sustained :
    (∀ (m : Monitor) (now : ℚ) (ok : Bool) (metrics : List (String × ℚ)) (ts : String),
      (dkeys m.anomaly_counters).Nodup →
      ((detectPhase m metrics).2.detected.map RawAnomaly.metric).Nodup →
      (∀ a ∈ (detectPhase m metrics).2.detected,
        dlookup (m.checkMetrics now ok metrics ts).1.anomaly_counters a.metric
          = some ((dlookup m.anomaly_counters a.metric).getD 0 + 1)) ∧
      (∀ a ∈ (detectPhase m metrics).2.detected,
        ((∃ y ∈ (m.checkMetrics now ok metrics ts).2.anomalies, y.metric = a.metric)
          ↔ m.min_anomaly_duration ≤ (dlookup m.anomaly_counters a.metric).getD 0 + 1)) ∧
      (∀ y ∈ (m.checkMetrics now ok metrics ts).2.anomalies,
        y.severity
            = (if m.min_anomaly_duration * 2 < y.duration then "high" else "medium")
          ∧ m.min_anomaly_duration ≤ y.duration) ∧
      (∀ x, (dlookup m.anomaly_counters x).isSome →
        x ∉ (detectPhase m metrics).2.detected.map RawAnomaly.metric →
        dlookup (m.checkMetrics now ok metrics ts).1.anomaly_counters x = some 0)) ∧
    (∀ (D : ℕ) (name : String) (d : CUMSUM) (cfg : MetricConfig) (v sc now : ℚ)
        (ok : Bool) (ts : String),
      d.update v = (d, true, sc) → name ≠ "timestamp" →
      ∀ r ∈ ((streakMonitor D name d cfg).runCycles now ok ts
          (List.replicate (D - 1) [(name, v)] ++ [[]])).2, r.anomalies = []) := by
  constructor
  · intro m now ok metrics ts hkeys hdet
    refine ⟨?_, ?_, ?_, ?_⟩
    · intro a ha
      rw [checkMetrics_counters_eq]
      have hmem : a.metric ∈ (sustainedFilter m.min_anomaly_duration ts
          m.anomaly_counters (detectPhase m metrics).2.detected).anomalyNames :=
        (sustainedFilter_anomalyNames _ _ _ _ _).mpr
          (List.mem_map_of_mem RawAnomaly.metric ha)
      rw [resetFold_counters_protected _ _ _ _ _ _ _ a.metric
        (List.elem_iff.mpr hmem)]
      exact sustainedFilter_counters_mem _ _ _ _ hdet a ha
    · intro a ha
      rw [checkMetrics_anomalies_eq]
      exact sustainedFilter_sustained_iff _ _ _ _ hdet a ha
    · intro y hy
      rw [checkMetrics_anomalies_eq] at hy
      exact sustainedFilter_severity _ _ _ _ y hy
    · intro x hsome hnot
      rw [checkMetrics_counters_eq]
      have hc0 : (sustainedFilter m.min_anomaly_duration ts m.anomaly_counters
          (detectPhase m metrics).2.detected).anomalyNames.contains x = false := by
        cases hq : (sustainedFilter m.min_anomaly_duration ts m.anomaly_counters
            (detectPhase m metrics).2.detected).anomalyNames.contains x with
        | false => rfl
        | true =>
          exact absurd
            ((sustainedFilter_anomalyNames _ _ _ _ x).mp (List.elem_iff.mp hq)) hnot
      have hmemk : x ∈ dkeys (sustainedFilter m.min_anomaly_duration ts
          m.anomaly_counters (detectPhase m metrics).2.detected).counters := by
        apply (dlookup_isSome_iff_mem_dkeys _ _).mp
        rw [sustainedFilter_counters_notmem _ _ _ _ _ hnot]
        exact hsome
      exact resetFold_counters_zero _ _ _ _ _ _ _ x hc0 hmemk
        (sustainedFilter_keys_nodup _ _ _ _ hkeys)
  · intro D name d cfg v sc now ok ts hupd hts
    exact streak_run D name d cfg v sc now ok ts hupd hts (D - 1) [] 0
      (Or.inl ⟨rfl, rfl⟩) (by omega)

/-- Witness for C2: a monitor with one CUMSUM metric (threshold 1, drift
0, reference 0) and `min_anomaly_duration = 3`.  A cycle at value 10 is
raw-positive, so the counter becomes 1 and no sustained anomaly is emitted
(1 < 3); a second monitor whose counter for another metric is 2 and which
sees no raw positive for it resets that counter to 0.  The streak part is
instantiated at `D = 3`: two firing cycles then an empty one emit nothing. -/
theorem C2_debounce_sustained_witness :
    (dlookup ((streakMonitor 3 "m" alarmDetector alarmConfig).checkMetrics 0 true
        [("m", 10)] "t").1.anomaly_counters "m" = some 1) ∧
    ((∃ y ∈ ((streakMonitor 3 "m" alarmDetector alarmConfig).checkMetrics 0 true
        [("m", 10)] "t").2.anomalies, y.metric = "m") ↔ (3 : ℕ) ≤ 1) ∧
    (dlookup (({ streakMonitor 3 "m" alarmDetector alarmConfig with
          anomaly_counters := [("x", 2)] }).checkMetrics 0 true
        [("m", 10)] "t").1.anomaly_counters "x" = some 0) ∧
    (∀ r ∈ ((streakMonitor 3 "m" alarmDetector alarmConfig).runCycles 0 true "t"
        (List.replicate 2 [("m", 10)] ++ [[]])).2, r.anomalies = []) := by
  have hupd : alarmDetector.update 10 = (alarmDetector, true, 10) := by
    with_unfolding_all decide
  have hdet : (((detectPhase (streakMonitor 3 "m" alarmDetector alarmConfig)
      [("m", 10)])).2.detected.map RawAnomaly.metric).Nodup := by
    with_unfolding_all decide
  have hm : ({ metric := "m", value := 10, score := (10 : ℚ), algorithm := "CUMSUM",
                configInfo := [("threshold", 1), ("drift", 0)] } : RawAnomaly)
      ∈ (detectPhase (streakMonitor 3 "m" alarmDetector alarmConfig)
          [("m", 10)]).2.detected := by
    with_unfolding_all exact List.mem_singleton_self _
  refine ⟨?_, ?_, ?_, ?_⟩
  · have h := ((C2_debounce_sustained.1 (streakMonitor 3 "m" alarmDetector alarmConfig)
      0 true [("m", 10)] "t" (by with_unfolding_all decide) hdet).1)
    exact (h _ hm).trans (by with_unfolding_all decide)
  · have h := ((C2_debounce_sustained.1 (streakMonitor 3 "m" alarmDetector alarmConfig)
      0 true [("m", 10)] "t" (by with_unfolding_all decide) hdet).2.1)
    exact (h _ hm).trans (by with_unfolding_all decide)
  · have h := ((C2_debounce_sustained.1 ({ streakMonitor 3 "m" alarmDetector alarmConfig
      with anomaly_counters := [("x", 2)] }) 0 true [("m", 10)] "t"
      (by with_unfolding_all decide) (by with_unfolding_all decide)).2.2.2)
    refine h "x" (by with_unfolding_all decide) ?_
    intro hx
    revert hx
    with_unfolding_all decide
  · exact C2_debounce_sustained.2 3 "m" alarmDetector alarmConfig 10 10 0 true "t" hupd
      (by with_unfolding_all decide)

/-- C3: in cycle `c3Cycle`, the metric `m` produces its first sustained
anomaly while the gateway is NORMAL (`alert_states` empty) and not
rate-limited, so per the claim exactly one alert notification should be
dispatched — but the webhook transport is invoked zero times, because
`check_metrics` calls `update_metric_state(name, True)` before
`send_anomaly_alert`, whose episode-dedupe check (`alert_states`) then
suppresses every alert.  The final conjunct shows this is not an accident
of the scenario: through `check_metrics` the outbound webhook trace never
changes, for any monitor state, samples, clock or transport. -/
theorem C3_alert_never_dispatched :
    c3Cycle.2.anomalies.length = 1 ∧
    (alarmMonitor.notifier.map (fun n => dlookup n.alert_states "m")) = some none ∧
    (c3Cycle.1.notifier.map (fun n => n.sent_webhooks.length)) = some 0 ∧
    (∀ (m : Monitor) (now : ℚ) (ok : Bool) (metrics : List (String × ℚ)) (ts : String),
      ((m.checkMetrics now ok metrics ts).1.notifier).map (fun n => n.sent_webhooks)
        = m.notifier.map (fun n => n.sent_webhooks)) := by
  refine ⟨?_, ?_, ?_, checkMetrics_sent_webhooks⟩ <;> with_unfolding_all decide

/-- C4: after `c3Cycle` the gateway is ALARMED for `m` with `recoverySent`
unset and an empty rate-limit window; cycle `c4Cycle2` is a recovery
transition (counter had reached `min_anomaly_duration`, no raw positive,
last value recorded), so per the claim a recovery notification should be
dispatched with delivered=true and `recoverySent` set — but the webhook is
invoked zero times and `recoverySent` stays false, because `check_metrics`
calls `update_metric_state(name, False)` before
`send_recovery_notification`, whose `alert_states` guard then returns
`False` immediately. -/
theorem C4_recovery_never_dispatched :
    (c3Cycle.1.notifier.map (fun n => dlookup n.alert_states "m"))
      = some (some true) ∧
    (c3Cycle.1.notifier.map (fun n => dlookup n.recovery_sent "m"))
      = some (some false) ∧
    (c3Cycle.1.notifier.map (fun n => dlookup n.alert_timestamps "m"))
      = some (some []) ∧
    (dlookup c3Cycle.1.anomaly_counters "m") = some 1 ∧
    (dlookup c3Cycle.1.last_metric_values "m") = some 10 ∧
    (dlookup c4Cycle2.1.anomaly_counters "m") = some 0 ∧
    (c4Cycle2.1.notifier.map (fun n => n.sent_webhooks.length)) = some 0 ∧
    (c4Cycle2.1.notifier.map (fun n => dlookup n.recovery_sent "m"))
      = some (some false) := by
  refine ⟨?_, ?_, ?_, ?_, ?_, ?_, ?_, ?_⟩ <;> with_unfolding_all decide

/-- C10: a configured metric whose sample is absent from the cycle's
metrics mapping is treated exactly like one with a non-positive reading:
its consecutive-anomaly counter is reset to 0, the counters and notifier
evolve identically to a run where the metric is present with a value its
detector does not flag, and when the counter had reached
`min_anomaly_duration` the absence itself fires the recovery pathway
(`update_metric_state(name, False)` followed by
`send_recovery_notification`). -/
theorem C10_absent_sample (D c₀ : ℕ) (name : String) (d d' : CUMSUM)
    (cfg : MetricConfig) (n : Notifier) (lastV v sc : ℚ)
    (metrics : List (String × ℚ)) (now : ℚ) (ok : Bool) (ts : String)
    (habs : dlookup metrics name = none)
    (hts : name ≠ "timestamp")
    (hupd : d.update v = (d', false, sc)) :
    ((c10Monitor D name d cfg c₀ lastV n).checkMetrics now ok
        metrics ts).1.anomaly_counters = [(name, 0)] ∧
    ((c10Monitor D name d cfg c₀ lastV n).checkMetrics now ok
        metrics ts).1.anomaly_counters
      = ((c10Monitor D name d cfg c₀ lastV n).checkMetrics now ok
          ((name, v) :: metrics) ts).1.anomaly_counters ∧
    ((c10Monitor D name d cfg c₀ lastV n).checkMetrics now ok
        metrics ts).1.notifier
      = ((c10Monitor D name d cfg c₀ lastV n).checkMetrics now ok
          ((name, v) :: metrics) ts).1.notifier ∧
    (D ≤ c₀ →
      ((c10Monitor D name d cfg c₀ lastV n).checkMetrics now ok
          metrics ts).1.notifier
        = some ((n.updateMetricState name false).sendRecoveryNotification
            now ok name lastV).1) ∧
    (¬ D ≤ c₀ →
      ((c10Monitor D name d cfg c₀ lastV n).checkMetrics now ok
          metrics ts).1.notifier = some n) := by
  by_cases hD : D ≤ c₀ <;>
    refine ⟨?_, ?_, ?_, ?_, ?_⟩ <;>
    simp [Monitor.checkMetrics, detectPhase, cumsumStep, ewmaStep, c10Monitor,
      sustainedFilter, sustainedStep, resetStep, stateUpdateStep, alertStep,
      dinsert, dkeys, lastN, habs, hts, hupd, hD]

/-- Witness for C10: `min_anomaly_duration = 2`, counter already at 3, the
metric's detector present but its sample missing from the cycle; after the
cycle the counter is exactly 0. -/
theorem C10_absent_sample_witness :
    ((c10Monitor 2 "m" (CUMSUM.init 5 (1 / 2)) alarmConfig 3 42
        { Notifier.init 10 true with alert_states := [("m", true)] }).checkMetrics
        0 true [] "t").1.anomaly_counters = [("m", 0)] := by
  exact (C10_absent_sample 2 3 "m" (CUMSUM.init 5 (1 / 2))
    ({ CUMSUM.init 5 (1 / 2) with reference_mean := some 7 }) alarmConfig
    ({ Notifier.init 10 true with alert_states := [("m", true)] }) 42 7 0 [] 0 true "t"
    rfl (by with_unfolding_all decide) (by with_unfolding_all decide)).1

/-- C6 counterexample: a transport failure is reported as not-delivered,
but the per-metric alert timestamp list is NOT left exactly as it was —
the rate-limit check already pruned the stale entry, so the list changed
from `[0]` to `[]` during the failed attempt. -/
theorem C6_counterexample :
    ((c6Notifier.sendAnomalyAlert 4000 false c6Anomaly).2 = false) ∧
    (c6Notifier.sendAnomalyAlert 4000 false c6Anomaly).1.alert_timestamps
      ≠ c6Notifier.alert_timestamps := by
  refine ⟨?_, ?_⟩ <;> with_unfolding_all decide

/-- C6 amended: when the transport fails, `send_anomaly_alert` and
`send_recovery_notification` catch the failure (a distinguishable
`NotificationError` raised by `_send_webhook`), return `false`, leave the
`inAlarm` and `recoverySent` maps unchanged and record no new timestamp;
the per-metric timestamp list, however, may lose entries older than the
1-hour window, pruned by the rate-limit check that runs before the send. -/
theorem C6_transport_failure_amended (n : Notifier) (now : ℚ) (a : SustainedAnomaly)
    (metric : String) (previousValue : ℚ) :
    (∀ e, (n.sendWebhook false e).2
      = Except.error { message := "Discord webhook failed" }) ∧
    ((n.sendAnomalyAlert now false a).2 = false ∧
     (n.sendAnomalyAlert now false a).1.alert_states = n.alert_states ∧
     (n.sendAnomalyAlert now false a).1.recovery_sent = n.recovery_sent ∧
     (n.sendAnomalyAlert now false a).1.alert_timestamps
       = dinsert n.alert_timestamps a.metric
           (pruneWindow now ((dlookup n.alert_timestamps a.metric).getD []))) ∧
    ((n.sendRecoveryNotification now false metric previousValue).2 = false ∧
     (n.sendRecoveryNotification now false metric previousValue).1.alert_states
       = n.alert_states ∧
     (n.sendRecoveryNotification now false metric previousValue).1.recovery_sent
       = n.recovery_sent ∧
     ((n.sendRecoveryNotification now false metric previousValue).1.alert_timestamps
        = n.alert_timestamps ∨
      (n.sendRecoveryNotification now false metric previousValue).1.alert_timestamps
        = dinsert n.alert_timestamps metric
            (pruneWindow now ((dlookup n.alert_timestamps metric).getD [])))) := by
  refine ⟨fun e => rfl, ?_, ?_⟩
  · simp only [Notifier.sendAnomalyAlert, Notifier.isRateLimited, Notifier.sendWebhook]
    split
    · exact ⟨rfl, rfl, rfl, rfl⟩
    · split
      · exact ⟨rfl, rfl, rfl, rfl⟩
      · exact ⟨rfl, rfl, rfl, rfl⟩
  · simp only [Notifier.sendRecoveryNotification, Notifier.isRateLimited,
      Notifier.sendWebhook]
    split
    · exact ⟨rfl, rfl, rfl, Or.inl rfl⟩
    · split
      · exact ⟨rfl, rfl, rfl, Or.inl rfl⟩
      · split
        · exact ⟨rfl, rfl, rfl, Or.inl rfl⟩
        · split
          · exact ⟨rfl, rfl, rfl, Or.inr rfl⟩
          · exact ⟨rfl, rfl, rfl, Or.inr rfl⟩

end Drift
